import Mathlib

/-!
# Dark mode toggle (`assets/js/darkmode.js`)

A shallow embedding of the script as explicit state passing over a `Page`:
the one `localStorage` key the script uses, the `dark-mode` class of the body,
the `.dark-mode-toggle` elements, the document readiness and the
`prefers-color-scheme` media query.  Every JavaScript function of the script is
a Lean function of the same name from `Page` to `Page` (with a returned value
where the script returns one); every listener the script registers is a handler
function, and the browser's event dispatch runs the registered handlers.

Environment conventions (the browser, not the script):
* `LocalStorage.available = false` is a storage whose reads yield `null` and
  whose writes have no effect;
* `Page.hasMatchMedia = false` is a browser without `window.matchMedia`;
* `document.body` exists whenever the script touches it.
-/

namespace DarkMode

/-! ## Environment: storage and DOM -/

/-- The entry of `localStorage` under `DARK_MODE_KEY` (`none` is an absent key),
and whether the storage works at all. -/
structure LocalStorage where
  item : Option String
  available : Bool
  deriving DecidableEq, Repr

/-- `localStorage.getItem(DARK_MODE_KEY)`: `none` is JavaScript's `null`. -/
def LocalStorage.getItem (ls : LocalStorage) : Option String :=
  if ls.available then ls.item else none

/-- `localStorage.setItem(DARK_MODE_KEY, v)`. -/
def LocalStorage.setItem (ls : LocalStorage) (v : String) : LocalStorage :=
  if ls.available then { ls with item := some v } else ls

/-- A `.dark-mode-toggle` element: its text, its `aria-label` attribute and the
number of times the click/keydown listener pair of `setupToggleButtons` has been
attached to it. -/
structure Button where
  textContent : String
  ariaLabel : String
  listeners : Nat
  deriving DecidableEq, Repr

/-- The page the script runs in. -/
structure Page where
  /-- the `localStorage` entry under `DARK_MODE_KEY` -/
  localStorage : LocalStorage
  /-- whether `document.body.classList` contains `dark-mode` -/
  darkModeClass : Bool
  /-- the result of `document.querySelectorAll('.dark-mode-toggle')` -/
  toggleButtons : List Button
  /-- whether `document.readyState === 'loading'` -/
  loading : Bool
  /-- the pending `DOMContentLoaded` listeners of the script, each given by the
  `isDarkMode` its closure captured -/
  domContentLoaded : List Bool
  /-- whether `window.matchMedia` is defined -/
  hasMatchMedia : Bool
  /-- the value of `window.matchMedia('(prefers-color-scheme: dark)').matches` -/
  prefersDark : Bool
  /-- the number of `change` listeners the script registered on the media query -/
  changeListeners : Nat
  deriving DecidableEq, Repr

/-- JavaScript's `Boolean.prototype.toString`. -/
def boolToString (b : Bool) : String :=
  if b then "true" else "false"

/-! ## The script -/

/-- Source lines 12-14:
`return localStorage.getItem(DARK_MODE_KEY) === 'true';` -/
def getDarkModePreference (s : Page) : Bool :=
  decide (s.localStorage.getItem = some "true")

/-- Source lines 17-19:
`localStorage.setItem(DARK_MODE_KEY, isDarkMode.toString());` -/
def saveDarkModePreference (isDarkMode : Bool) (s : Page) : Page :=
  { s with localStorage := s.localStorage.setItem (boolToString isDarkMode) }

/-- Source lines 22-28: add or remove the `dark-mode` class of the body. -/
def applyDarkMode (isDarkMode : Bool) (s : Page) : Page :=
  if isDarkMode then { s with darkModeClass := true }
  else { s with darkModeClass := false }

/-- Source lines 31-36: set the text and the `aria-label` of one button (an
element returned by `querySelectorAll` is always truthy). -/
def updateToggleButton (button : Button) (isDarkMode : Bool) : Button :=
  { button with
    textContent := if isDarkMode then "Light Mode" else "Dark Mode"
    ariaLabel := if isDarkMode then "Switch to light mode" else "Switch to dark mode" }

/-- Source lines 47-48 and 115-116:
`toggleButtons.forEach(button => updateToggleButton(button, isDarkMode))`. -/
def updateAllToggleButtons (isDarkMode : Bool) (s : Page) : Page :=
  { s with toggleButtons := s.toggleButtons.map fun button => updateToggleButton button isDarkMode }

/-- Source lines 39-49. -/
def toggleDarkMode (s : Page) : Page :=
  let currentMode := getDarkModePreference s
  let newMode := !currentMode
  let s := applyDarkMode newMode s
  let s := saveDarkModePreference newMode s
  updateAllToggleButtons newMode s

/-- Source lines 69-90: every button gets its initial text and one more
click/keydown listener pair. -/
def setupToggleButtons (isDarkMode : Bool) (s : Page) : Page :=
  { s with toggleButtons := s.toggleButtons.map fun button =>
      let button := updateToggleButton button isDarkMode
      { button with listeners := button.listeners + 1 } }

/-- Source lines 93-101: the returned value and the page afterwards. -/
def detectSystemPreference (s : Page) : Bool × Page :=
  if s.localStorage.getItem = none then
    if s.hasMatchMedia && s.prefersDark then
      (true, saveDarkModePreference true s)
    else
      (getDarkModePreference s, s)
  else
    (getDarkModePreference s, s)

/-- Source lines 109-118: the `change` listener, `isDark` being `e.matches`. -/
def systemThemeChangeHandler (isDark : Bool) (s : Page) : Page :=
  if s.localStorage.getItem = none then
    let isDarkMode := isDark
    let s := applyDarkMode isDarkMode s
    let s := saveDarkModePreference isDarkMode s
    updateAllToggleButtons isDarkMode s
  else s

/-- Source lines 104-120: register the `change` listener when `window.matchMedia`
exists. -/
def setupSystemThemeListener (s : Page) : Page :=
  if s.hasMatchMedia then { s with changeListeners := s.changeListeners + 1 } else s

/-- Source lines 123-139. -/
def init (s : Page) : Page :=
  let r := detectSystemPreference s
  let isDarkMode := r.1
  let s := applyDarkMode isDarkMode r.2
  let s := setupSystemThemeListener s
  if s.loading then
    { s with domContentLoaded := s.domContentLoaded ++ [isDarkMode] }
  else
    setupToggleButtons isDarkMode s

/-! ## Event dispatch -/

/-- Source lines 77-80: the click listener; the second component is whether
`e.preventDefault()` was called. -/
def clickHandler (s : Page) : Page × Bool :=
  (toggleDarkMode s, true)

/-- Source lines 83-88: the keydown listener for `e.key = key`. -/
def keydownHandler (key : String) (s : Page) : Page × Bool :=
  if key = "Enter" ∨ key = " " then (toggleDarkMode s, true) else (s, false)

/-- Run one handler once per attached listener; the default action is prevented
when some run prevented it. -/
def runListeners (handler : Page → Page × Bool) : Nat → Page → Page × Bool
  | 0, s => (s, false)
  | n + 1, s =>
    let r := handler s
    let r2 := runListeners handler n r.1
    (r2.1, r.2 || r2.2)

/-- A click on the `i`-th toggle button: the page afterwards and whether the
default action was prevented. -/
def click (i : Nat) (s : Page) : Page × Bool :=
  match s.toggleButtons.get? i with
  | some button => runListeners clickHandler button.listeners s
  | none => (s, false)

/-- A keydown with `e.key = key` on the `i`-th toggle button. -/
def keydown (i : Nat) (key : String) (s : Page) : Page × Bool :=
  match s.toggleButtons.get? i with
  | some button => runListeners (keydownHandler key) button.listeners s
  | none => (s, false)

/-- The operating system switches its colour scheme: the media query now reports
`isDark` and every registered `change` listener runs. -/
def systemThemeChange (isDark : Bool) (s : Page) : Page :=
  (systemThemeChangeHandler isDark)^[s.changeListeners] { s with prefersDark := isDark }

/-- The document finishes parsing: `readyState` leaves `'loading'` and the pending
`DOMContentLoaded` listeners run in registration order. -/
def fireDOMContentLoaded (s : Page) : Page :=
  if s.loading then
    s.domContentLoaded.foldl (fun acc isDarkMode => setupToggleButtons isDarkMode acc)
      { s with loading := false, domContentLoaded := [] }
  else s

/-- What can happen to the page after `init()`. -/
inductive Event where
  /-- a call of the exported `window.toggleDarkMode` -/
  | toggle
  /-- the operating system reports a new `prefers-color-scheme` value -/
  | systemTheme (isDark : Bool)
  /-- the `DOMContentLoaded` event -/
  | domReady
  /-- a click on the `i`-th toggle button -/
  | click (i : Nat)
  /-- a keydown on the `i`-th toggle button -/
  | keydown (i : Nat) (key : String)
  deriving DecidableEq, Repr

/-- The page after one event. -/
def step (s : Page) : Event → Page
  | .toggle => toggleDarkMode s
  | .systemTheme isDark => systemThemeChange isDark s
  | .domReady => fireDOMContentLoaded s
  | .click i => (click i s).1
  | .keydown i key => (keydown i key s).1

/-- The page after `init()` on `s` followed by the events in order. -/
def run (s : Page) (events : List Event) : Page :=
  events.foldl step (init s)

/-- A page on which the script has not run yet: no listener of the script is
registered anywhere. -/
def Fresh (s : Page) : Prop :=
  s.domContentLoaded = [] ∧ s.changeListeners = 0 ∧ ∀ b ∈ s.toggleButtons, b.listeners = 0

/-! ## Derived notions used by the statements -/

/-- The effective preference: the stored string compared with `"true"` when the
key is present, else the OS flag when `window.matchMedia` exists, else `false`. -/
def effectivePreference (s : Page) : Bool :=
  match s.localStorage.getItem with
  | some v => decide (v = "true")
  | none => s.hasMatchMedia && s.prefersDark

/-- The button shows the text and `aria-label` for mode `isDarkMode`. -/
def Button.Shows (b : Button) (isDarkMode : Bool) : Prop :=
  b.textContent = (if isDarkMode then "Light Mode" else "Dark Mode") ∧
  b.ariaLabel = (if isDarkMode then "Switch to light mode" else "Switch to dark mode")

instance (b : Button) (m : Bool) : Decidable (b.Shows m) := by
  unfold Button.Shows; infer_instance

/-- Every toggle button of the page shows the labels for mode `isDarkMode`. -/
def LabelsShow (s : Page) (isDarkMode : Bool) : Prop :=
  ∀ b ∈ s.toggleButtons, b.Shows isDarkMode

instance (s : Page) (m : Bool) : Decidable (LabelsShow s m) := by
  unfold LabelsShow; infer_instance

/-- The preference as the specification describes it: `some true` for the
stored string `"true"`, `some false` for any other stored string, `none` for an
absent key. -/
def specGetPreference (s : Page) : Option Bool :=
  match s.localStorage.getItem with
  | some v => some (decide (v = "true"))
  | none => none

/-- The state invariant of the visual state: the storage works, a browser with
`window.matchMedia` has a registered change listener, and the class agrees with
the effective preference. -/
def VisualInv (s : Page) : Prop :=
  s.localStorage.available = true ∧ (s.hasMatchMedia = true → 0 < s.changeListeners) ∧
  s.darkModeClass = effectivePreference s

/-- The state invariant of the labels: the controls are bound (the document is
no longer loading) and every toggle button shows the labels of the mode the
`dark-mode` class displays. -/
def LabelsInv (s : Page) : Prop :=
  s.loading = false ∧ LabelsShow s s.darkModeClass

/-! ## Concrete pages -/

/-- A toggle button as the markup delivers it: no text set, no listener. -/
def plainButton : Button :=
  { textContent := "", ariaLabel := "", listeners := 0 }

/-- A toggle button after one run of `setupToggleButtons` in light mode. -/
def boundButton : Button :=
  { textContent := "Dark Mode", ariaLabel := "Switch to dark mode", listeners := 1 }

/-- First visit, document already parsed: nothing stored, working storage, the
OS reports light, two toggle buttons. -/
def firstVisit : Page :=
  { localStorage := { item := none, available := true }
    darkModeClass := false
    toggleButtons := [plainButton, plainButton]
    loading := false
    domContentLoaded := []
    hasMatchMedia := true
    prefersDark := false
    changeListeners := 0 }

/-- First visit with the script running while the document is still loading. -/
def firstVisitLoading : Page :=
  { firstVisit with loading := true }

/-- A returning visitor whose stored choice is `"false"`, on a dark OS. -/
def storedLight : Page :=
  { firstVisit with localStorage := { item := some "false", available := true }, prefersDark := true }

/-- A browser with storage disabled and without `window.matchMedia`. -/
def degraded : Page :=
  { localStorage := { item := none, available := false }
    darkModeClass := false
    toggleButtons := [plainButton]
    loading := false
    domContentLoaded := []
    hasMatchMedia := false
    prefersDark := false
    changeListeners := 0 }

/-- A page after `init()` in light mode with nothing stored: the listeners are
registered, the button is bound. -/
def tracking : Page :=
  { localStorage := { item := none, available := true }
    darkModeClass := false
    toggleButtons := [boundButton]
    loading := false
    domContentLoaded := []
    hasMatchMedia := true
    prefersDark := false
    changeListeners := 1 }

/-! ## Basic facts about the environment and the small functions -/

theorem boolToString_eq_true (b : Bool) : boolToString b = "true" ↔ b = true := by
  cases b <;> decide

theorem boolToString_cases (b : Bool) : boolToString b = "true" ∨ boolToString b = "false" := by
  cases b <;> decide

theorem getItem_setItem (ls : LocalStorage) (v : String) (h : ls.available = true) :
    (ls.setItem v).getItem = some v := by
  simp [LocalStorage.setItem, LocalStorage.getItem, h]

theorem getItem_of_unavailable (ls : LocalStorage) (h : ls.available = false) :
    ls.getItem = none := by
  simp [LocalStorage.getItem, h]

theorem setItem_of_unavailable (ls : LocalStorage) (v : String) (h : ls.available = false) :
    ls.setItem v = ls := by
  simp [LocalStorage.setItem, h]

theorem available_setItem (ls : LocalStorage) (v : String) :
    (ls.setItem v).available = ls.available := by
  unfold LocalStorage.setItem
  split <;> rfl

theorem available_of_getItem (ls : LocalStorage) (v : String) (h : ls.getItem = some v) :
    ls.available = true := by
  unfold LocalStorage.getItem at h
  split at h
  · assumption
  · cases h

theorem updateToggleButton_shows (button : Button) (isDarkMode : Bool) :
    (updateToggleButton button isDarkMode).Shows isDarkMode :=
  ⟨rfl, rfl⟩

theorem labelsShow_updateAll (isDarkMode : Bool) (s : Page) :
    LabelsShow (updateAllToggleButtons isDarkMode s) isDarkMode := by
  intro b hb
  simp only [updateAllToggleButtons, List.mem_map] at hb
  obtain ⟨a, _, rfl⟩ := hb
  exact updateToggleButton_shows a isDarkMode

theorem darkModeClass_applyDarkMode (isDarkMode : Bool) (s : Page) :
    (applyDarkMode isDarkMode s).darkModeClass = isDarkMode := by
  cases isDarkMode <;> rfl

theorem applyDarkMode_eq (isDarkMode : Bool) (s : Page) :
    applyDarkMode isDarkMode s = { s with darkModeClass := isDarkMode } := by
  cases isDarkMode <;> rfl

/-! ## `toggleDarkMode` field by field -/

theorem toggleDarkMode_darkModeClass (s : Page) :
    (toggleDarkMode s).darkModeClass = !getDarkModePreference s := by
  simp [toggleDarkMode, updateAllToggleButtons, saveDarkModePreference, applyDarkMode_eq]

theorem toggleDarkMode_localStorage (s : Page) :
    (toggleDarkMode s).localStorage
      = s.localStorage.setItem (boolToString (!getDarkModePreference s)) := by
  simp [toggleDarkMode, updateAllToggleButtons, saveDarkModePreference, applyDarkMode_eq,
    getDarkModePreference]

theorem toggleDarkMode_labels (s : Page) :
    LabelsShow (toggleDarkMode s) (!getDarkModePreference s) := by
  unfold toggleDarkMode
  exact labelsShow_updateAll _ _

theorem toggleDarkMode_length (s : Page) :
    (toggleDarkMode s).toggleButtons.length = s.toggleButtons.length := by
  simp [toggleDarkMode, updateAllToggleButtons, saveDarkModePreference, applyDarkMode_eq]

theorem toggleDarkMode_env (s : Page) :
    (toggleDarkMode s).hasMatchMedia = s.hasMatchMedia ∧
    (toggleDarkMode s).prefersDark = s.prefersDark ∧
    (toggleDarkMode s).changeListeners = s.changeListeners ∧
    (toggleDarkMode s).loading = s.loading ∧
    (toggleDarkMode s).domContentLoaded = s.domContentLoaded := by
  simp [toggleDarkMode, updateAllToggleButtons, saveDarkModePreference, applyDarkMode_eq]

/-! ## Reading and writing the preference -/

/-- C8, as stated, fails: no reading of the boolean that `getDarkModePreference`
returns yields the tri-state preference of the specification, because an absent
key and a stored `"false"` give the same returned value. -/
theorem getDarkModePreference_not_tristate :
    ¬ ∃ view : Bool → Option Bool,
        ∀ s : Page, view (getDarkModePreference s) = specGetPreference s := by
  rintro ⟨view, h⟩
  have h1 := h firstVisit
  have h2 := h storedLight
  have e1 : getDarkModePreference firstVisit = false := by decide
  have e2 : getDarkModePreference storedLight = false := by decide
  have e3 : specGetPreference firstVisit = none := by decide
  have e4 : specGetPreference storedLight = some false := by decide
  rw [e1, e3] at h1
  rw [e2, e4, h1] at h2
  cases h2

/-- C8, amended: `getDarkModePreference` returns a plain boolean, `true` exactly
when the stored string is `"true"`, and `false` both for every other stored
string and for an absent key. -/
theorem getDarkModePreference_two_state (s : Page) :
    getDarkModePreference s =
      (match s.localStorage.getItem with
       | some v => decide (v = "true")
       | none => false) := by
  unfold getDarkModePreference
  cases s.localStorage.getItem <;> simp

/-- C9: with a working storage, `saveDarkModePreference v` followed by
`getDarkModePreference` yields `v` (and `some v` in the tri-state reading of the
specification), and the stored value is the string `"true"` or `"false"`. -/
theorem save_then_get (v : Bool) (s : Page) (h : s.localStorage.available = true) :
    getDarkModePreference (saveDarkModePreference v s) = v ∧
    specGetPreference (saveDarkModePreference v s) = some v ∧
    (saveDarkModePreference v s).localStorage.getItem = some (boolToString v) ∧
    (boolToString v = "true" ∨ boolToString v = "false") := by
  have hg : (saveDarkModePreference v s).localStorage.getItem = some (boolToString v) :=
    getItem_setItem _ _ h
  refine ⟨?_, ?_, hg, boolToString_cases v⟩
  · unfold getDarkModePreference
    rw [hg]
    cases v <;> decide
  · unfold specGetPreference
    rw [hg]
    cases v <;> decide

/-- Witness of C9 on a returning visitor whose stored choice is `"false"`. -/
theorem save_then_get_witness :
    storedLight.localStorage.available = true ∧
    getDarkModePreference (saveDarkModePreference true storedLight) = true ∧
    specGetPreference (saveDarkModePreference true storedLight) = some true ∧
    (saveDarkModePreference true storedLight).localStorage.getItem = some (boolToString true) ∧
    (boolToString true = "true" ∨ boolToString true = "false") :=
  ⟨rfl, save_then_get true storedLight rfl⟩

/-! ## Resolution of the effective preference -/

theorem detectSystemPreference_of_present (s : Page) (v : String)
    (hv : s.localStorage.getItem = some v) :
    detectSystemPreference s = (decide (v = "true"), s) := by
  simp [detectSystemPreference, getDarkModePreference, hv]

theorem detectSystemPreference_of_dark (s : Page) (hn : s.localStorage.getItem = none)
    (hm : s.hasMatchMedia = true) (hd : s.prefersDark = true) :
    detectSystemPreference s = (true, saveDarkModePreference true s) := by
  simp [detectSystemPreference, hn, hm, hd]

theorem detectSystemPreference_of_light (s : Page) (hn : s.localStorage.getItem = none)
    (hos : s.hasMatchMedia = false ∨ s.prefersDark = false) :
    detectSystemPreference s = (false, s) := by
  rcases hos with hm | hd
  · simp [detectSystemPreference, getDarkModePreference, hn, hm]
  · simp [detectSystemPreference, getDarkModePreference, hn, hd]

theorem saveDarkModePreference_true_eq (s : Page) (h : s.localStorage.available = true) :
    saveDarkModePreference true s
      = { s with localStorage := { item := some "true", available := true } } := by
  simp [saveDarkModePreference, LocalStorage.setItem, h, boolToString]

/-- C4: `detectSystemPreference` on a working storage.  A present key: the result
is the stored string compared with `"true"` and the page is unchanged, whatever
the OS reports.  An absent key and a dark OS: the result is `true` and the
storage holds `"true"` (nothing else changes).  An absent key and a light or
missing OS signal: the result is `false` and the page is unchanged, so the key is
still absent. -/
theorem detectSystemPreference_spec (s : Page) (h : s.localStorage.available = true) :
    (∀ v, s.localStorage.getItem = some v →
        detectSystemPreference s = (decide (v = "true"), s)) ∧
    (s.localStorage.getItem = none → s.hasMatchMedia = true → s.prefersDark = true →
        (detectSystemPreference s).1 = true ∧
        (detectSystemPreference s).2.localStorage.getItem = some "true" ∧
        (detectSystemPreference s).2
          = { s with localStorage := { item := some "true", available := true } }) ∧
    (s.localStorage.getItem = none → (s.hasMatchMedia = false ∨ s.prefersDark = false) →
        detectSystemPreference s = (false, s) ∧
        (detectSystemPreference s).2.localStorage.getItem = none) := by
  refine ⟨detectSystemPreference_of_present s, ?_, ?_⟩
  · intro hn hm hd
    rw [detectSystemPreference_of_dark s hn hm hd]
    exact ⟨rfl, getItem_setItem _ _ h, saveDarkModePreference_true_eq s h⟩
  · intro hn hos
    rw [detectSystemPreference_of_light s hn hos]
    exact ⟨rfl, hn⟩

/-- Witness of C4 on a first visit (nothing stored, light OS). -/
theorem detectSystemPreference_spec_witness :
    firstVisit.localStorage.available = true ∧
    detectSystemPreference firstVisit = (false, firstVisit) ∧
    (detectSystemPreference firstVisit).2.localStorage.getItem = none :=
  ⟨rfl, (detectSystemPreference_spec firstVisit rfl).2.2 rfl (Or.inr rfl)⟩

/-! ## Toggling -/

/-- C5: on a working storage, after `toggleDarkMode` the new mode is the negation
of the preference read before the call (stored string equal to `"true"`, an
absent key counting as `false`): the storage holds the string form of the new
mode, the preference read back is the new mode, the `dark-mode` class is present
exactly when the new mode is `true`, and every toggle button (their number is
unchanged) shows the text and `aria-label` of the new mode.  In particular, from
a page without the class whose preference is not `"true"`, one toggle gives the
class, the stored string `"true"` and the text `Light Mode`. -/
theorem toggleDarkMode_consistent (s : Page) (h : s.localStorage.available = true) :
    (toggleDarkMode s).localStorage.getItem
      = some (boolToString (!decide (s.localStorage.getItem = some "true"))) ∧
    getDarkModePreference (toggleDarkMode s) = (!decide (s.localStorage.getItem = some "true")) ∧
    (toggleDarkMode s).darkModeClass = (!decide (s.localStorage.getItem = some "true")) ∧
    LabelsShow (toggleDarkMode s) (!decide (s.localStorage.getItem = some "true")) ∧
    (toggleDarkMode s).toggleButtons.length = s.toggleButtons.length ∧
    (s.darkModeClass = false → s.localStorage.getItem ≠ some "true" →
      (toggleDarkMode s).darkModeClass = true ∧
      (toggleDarkMode s).localStorage.getItem = some "true" ∧
      ∀ b ∈ (toggleDarkMode s).toggleButtons, b.textContent = "Light Mode") := by
  have hst : (toggleDarkMode s).localStorage.getItem
      = some (boolToString (!decide (s.localStorage.getItem = some "true"))) := by
    rw [toggleDarkMode_localStorage]
    exact getItem_setItem _ _ h
  have hget : getDarkModePreference (toggleDarkMode s)
      = (!decide (s.localStorage.getItem = some "true")) := by
    unfold getDarkModePreference
    rw [hst]
    cases decide (s.localStorage.getItem = some "true") <;> decide
  refine ⟨hst, hget, toggleDarkMode_darkModeClass s, toggleDarkMode_labels s,
    toggleDarkMode_length s, ?_⟩
  intro _ hne
  have hd : decide (s.localStorage.getItem = some "true") = false := decide_eq_false hne
  refine ⟨?_, ?_, ?_⟩
  · rw [toggleDarkMode_darkModeClass, getDarkModePreference, hd]; rfl
  · rw [hst, hd]; rfl
  · intro b hb
    have hs := toggleDarkMode_labels s b hb
    rw [getDarkModePreference, hd] at hs
    exact hs.1

/-- Witness of C5 on a first visit: one toggle from the light page. -/
theorem toggleDarkMode_consistent_witness :
    firstVisit.localStorage.available = true ∧
    (toggleDarkMode firstVisit).darkModeClass = true ∧
    (toggleDarkMode firstVisit).localStorage.getItem = some "true" ∧
    ∀ b ∈ (toggleDarkMode firstVisit).toggleButtons, b.textContent = "Light Mode" :=
  ⟨rfl, (toggleDarkMode_consistent firstVisit rfl).2.2.2.2.2 rfl (by decide)⟩

/-! ## The OS preference-change listener -/

theorem systemThemeChangeHandler_of_present (isDark : Bool) (s : Page)
    (h : s.localStorage.getItem ≠ none) : systemThemeChangeHandler isDark s = s := by
  simp [systemThemeChangeHandler, h]

theorem systemThemeChangeHandler_of_absent (isDark : Bool) (s : Page)
    (h : s.localStorage.getItem = none) :
    systemThemeChangeHandler isDark s
      = updateAllToggleButtons isDark
          (saveDarkModePreference isDark (applyDarkMode isDark s)) := by
  simp [systemThemeChangeHandler, h]

theorem iterate_handler_of_present (isDark : Bool) (n : Nat) (s : Page)
    (h : s.localStorage.getItem ≠ none) : (systemThemeChangeHandler isDark)^[n] s = s := by
  induction n with
  | zero => rfl
  | succ n ih =>
    rw [Function.iterate_succ_apply, systemThemeChangeHandler_of_present isDark s h, ih]

theorem systemThemeChangeHandler_localStorage (isDark : Bool) (s : Page)
    (h : s.localStorage.getItem = none) :
    (systemThemeChangeHandler isDark s).localStorage
      = s.localStorage.setItem (boolToString isDark) := by
  rw [systemThemeChangeHandler_of_absent isDark s h]
  simp [updateAllToggleButtons, saveDarkModePreference, applyDarkMode_eq]

theorem systemThemeChangeHandler_darkModeClass (isDark : Bool) (s : Page)
    (h : s.localStorage.getItem = none) :
    (systemThemeChangeHandler isDark s).darkModeClass = isDark := by
  rw [systemThemeChangeHandler_of_absent isDark s h]
  simp [updateAllToggleButtons, saveDarkModePreference, applyDarkMode_eq]

theorem systemThemeChangeHandler_env (isDark : Bool) (s : Page) :
    (systemThemeChangeHandler isDark s).hasMatchMedia = s.hasMatchMedia ∧
    (systemThemeChangeHandler isDark s).prefersDark = s.prefersDark ∧
    (systemThemeChangeHandler isDark s).changeListeners = s.changeListeners ∧
    (systemThemeChangeHandler isDark s).loading = s.loading ∧
    (systemThemeChangeHandler isDark s).domContentLoaded = s.domContentLoaded := by
  unfold systemThemeChangeHandler
  split
  · simp [updateAllToggleButtons, saveDarkModePreference, applyDarkMode_eq]
  · simp

theorem iterate_succ_handler_of_absent (isDark : Bool) (n : Nat) (s : Page)
    (h : s.localStorage.available = true) (hn : s.localStorage.getItem = none) :
    (systemThemeChangeHandler isDark)^[n + 1] s = systemThemeChangeHandler isDark s := by
  rw [Function.iterate_succ_apply]
  apply iterate_handler_of_present
  rw [systemThemeChangeHandler_localStorage isDark s hn, getItem_setItem _ _ h]
  simp

/-- With a working storage and at least one registered listener, a change event
on an absent key amounts to one run of the handler: the first run stores the
value and the later runs see a present key. -/
theorem systemThemeChange_of_absent (isDark : Bool) (s : Page)
    (h : s.localStorage.available = true) (hn : s.localStorage.getItem = none)
    (hl : 0 < s.changeListeners) :
    systemThemeChange isDark s
      = systemThemeChangeHandler isDark { s with prefersDark := isDark } := by
  unfold systemThemeChange
  obtain ⟨n, hn1⟩ : ∃ n, s.changeListeners = n + 1 := ⟨s.changeListeners - 1, by omega⟩
  exact hn1 ▸ iterate_succ_handler_of_absent isDark n _ h hn

/-- C6: whenever the key is present in storage, whatever its value, an OS
preference-change event with any new value changes nothing but the reported OS
flag: the listener returns the page as it was, and after the event the storage,
the `dark-mode` class and every toggle button are unchanged. -/
theorem systemThemeChange_suppressed (isDark : Bool) (s : Page)
    (h : s.localStorage.getItem ≠ none) :
    systemThemeChangeHandler isDark s = s ∧
    systemThemeChange isDark s = { s with prefersDark := isDark } ∧
    (systemThemeChange isDark s).localStorage = s.localStorage ∧
    (systemThemeChange isDark s).darkModeClass = s.darkModeClass ∧
    (systemThemeChange isDark s).toggleButtons = s.toggleButtons := by
  have e : systemThemeChange isDark s = { s with prefersDark := isDark } :=
    iterate_handler_of_present isDark _ _ h
  refine ⟨systemThemeChangeHandler_of_present isDark s h, e, ?_, ?_, ?_⟩ <;> rw [e]

/-- Witness of C6: a stored `"false"` survives the OS turning light, with one
listener registered. -/
theorem systemThemeChange_suppressed_witness :
    (init storedLight).localStorage.getItem ≠ none ∧
    systemThemeChangeHandler false (init storedLight) = init storedLight ∧
    systemThemeChange false (init storedLight)
      = { init storedLight with prefersDark := false } ∧
    (systemThemeChange false (init storedLight)).localStorage = (init storedLight).localStorage ∧
    (systemThemeChange false (init storedLight)).darkModeClass
      = (init storedLight).darkModeClass ∧
    (systemThemeChange false (init storedLight)).toggleButtons
      = (init storedLight).toggleButtons :=
  ⟨by decide, systemThemeChange_suppressed false (init storedLight) (by decide)⟩

/-- C1, as stated, fails: on a page that tracks the OS with nothing stored, the
key is absent before the OS turns dark and holds `"true"` after the listener has
run. -/
theorem systemThemeChange_persists_example :
    tracking.localStorage.getItem = none ∧
    (systemThemeChangeHandler true tracking).localStorage.getItem = some "true" ∧
    (systemThemeChange true tracking).localStorage.getItem ≠ none := by
  decide

/-- C1, amended: on a working storage with no key persisted, the listener sets
the `dark-mode` class and every toggle button's text and `aria-label` to the new
OS value and persists it: afterwards the storage holds the string form of the
new OS value.  The same holds for the whole change event once a listener is
registered. -/
theorem systemThemeChange_adopts (isDark : Bool) (s : Page)
    (h : s.localStorage.available = true) (hn : s.localStorage.getItem = none) :
    (systemThemeChangeHandler isDark s).darkModeClass = isDark ∧
    LabelsShow (systemThemeChangeHandler isDark s) isDark ∧
    (systemThemeChangeHandler isDark s).toggleButtons.length = s.toggleButtons.length ∧
    (systemThemeChangeHandler isDark s).localStorage.getItem = some (boolToString isDark) ∧
    (0 < s.changeListeners →
      (systemThemeChange isDark s).darkModeClass = isDark ∧
      LabelsShow (systemThemeChange isDark s) isDark ∧
      (systemThemeChange isDark s).localStorage.getItem = some (boolToString isDark)) := by
  have key : ∀ t : Page, t.localStorage.available = true → t.localStorage.getItem = none →
      (systemThemeChangeHandler isDark t).darkModeClass = isDark ∧
      LabelsShow (systemThemeChangeHandler isDark t) isDark ∧
      (systemThemeChangeHandler isDark t).toggleButtons.length = t.toggleButtons.length ∧
      (systemThemeChangeHandler isDark t).localStorage.getItem
        = some (boolToString isDark) := by
    intro t ht htn
    refine ⟨systemThemeChangeHandler_darkModeClass isDark t htn, ?_, ?_, ?_⟩
    · rw [systemThemeChangeHandler_of_absent isDark t htn]
      exact labelsShow_updateAll _ _
    · rw [systemThemeChangeHandler_of_absent isDark t htn]
      simp [updateAllToggleButtons, saveDarkModePreference, applyDarkMode_eq]
    · rw [systemThemeChangeHandler_localStorage isDark t htn]
      exact getItem_setItem _ _ ht
  obtain ⟨k1, k2, k3, k4⟩ := key s h hn
  refine ⟨k1, k2, k3, k4, ?_⟩
  intro hl
  rw [systemThemeChange_of_absent isDark s h hn hl]
  obtain ⟨e1, e2, _, e4⟩ := key { s with prefersDark := isDark } h hn
  exact ⟨e1, e2, e4⟩

/-- Witness of C1 amended: the OS turns dark on a tracking page. -/
theorem systemThemeChange_adopts_witness :
    tracking.localStorage.available = true ∧ tracking.localStorage.getItem = none ∧
    0 < tracking.changeListeners ∧
    (systemThemeChange true tracking).darkModeClass = true ∧
    LabelsShow (systemThemeChange true tracking) true ∧
    (systemThemeChange true tracking).localStorage.getItem = some (boolToString true) :=
  ⟨rfl, rfl, by decide,
    (systemThemeChange_adopts true tracking rfl rfl).2.2.2.2 (by decide)⟩

/-! ## Activation of a bound control -/

theorem runListeners_clickHandler (n : Nat) (s : Page) :
    runListeners clickHandler n s = (toggleDarkMode^[n] s, decide (0 < n)) := by
  induction n generalizing s with
  | zero => rfl
  | succ n ih =>
    simp [runListeners, ih, clickHandler, Function.iterate_succ_apply]

theorem keydownHandler_of_activation (key : String) (h : key = "Enter" ∨ key = " ") :
    keydownHandler key = clickHandler := by
  funext s
  simp [keydownHandler, clickHandler, h]

theorem runListeners_keydownHandler_other (key : String) (h1 : key ≠ "Enter") (h2 : key ≠ " ")
    (n : Nat) (s : Page) : runListeners (keydownHandler key) n s = (s, false) := by
  induction n with
  | zero => rfl
  | succ n ih =>
    simp [runListeners, ih, keydownHandler, h1, h2]

/-- C10: on a bound control (one that carries the listeners of
`setupToggleButtons`), a keydown with key `Enter` or a single space gives exactly
the result of a click, as a pair of the page afterwards and the
default-prevented flag; the click runs `toggleDarkMode` once per attached
listener and prevents the default action, hence so do these two keydowns; a
keydown with any other key leaves the page as it was and does not prevent the
default action. -/
theorem keydown_activation (i : Nat) (key : String) (s : Page) (b : Button)
    (hb : s.toggleButtons.get? i = some b) (hl : 0 < b.listeners) :
    (key = "Enter" ∨ key = " " → keydown i key s = click i s) ∧
    click i s = (toggleDarkMode^[b.listeners] s, true) ∧
    (key = "Enter" ∨ key = " " →
      keydown i key s = (toggleDarkMode^[b.listeners] s, true)) ∧
    (key ≠ "Enter" → key ≠ " " → keydown i key s = (s, false)) := by
  have hc : click i s = (toggleDarkMode^[b.listeners] s, true) := by
    simp only [click, hb, runListeners_clickHandler, hl, decide_True]
  have hk : key = "Enter" ∨ key = " " → keydown i key s = click i s := by
    intro hkey
    simp only [keydown, click, hb, keydownHandler_of_activation key hkey]
  refine ⟨hk, hc, fun hkey => (hk hkey).trans hc, ?_⟩
  intro h1 h2
  simp only [keydown, hb, runListeners_keydownHandler_other key h1 h2]

/-- Witness of C10: `Enter` on the first button of an initialised first visit. -/
theorem keydown_activation_witness :
    (init firstVisit).toggleButtons.get? 0 = some boundButton ∧ 0 < boundButton.listeners ∧
    keydown 0 "Enter" (init firstVisit) = click 0 (init firstVisit) ∧
    click 0 (init firstVisit) = (toggleDarkMode^[boundButton.listeners] (init firstVisit), true) :=
  ⟨by decide, by decide,
    (keydown_activation 0 "Enter" (init firstVisit) boundButton (by decide) (by decide)).1
      (Or.inl rfl),
    (keydown_activation 0 "Enter" (init firstVisit) boundButton (by decide) (by decide)).2.1⟩

/-! ## Degraded browser: no storage, no OS signal -/

theorem toggleDarkMode_of_unavailable (s : Page) (h : s.localStorage.available = false) :
    (toggleDarkMode s).darkModeClass = true ∧ LabelsShow (toggleDarkMode s) true ∧
    (toggleDarkMode s).localStorage = s.localStorage := by
  have hg : getDarkModePreference s = false := by
    simp [getDarkModePreference, getItem_of_unavailable _ h]
  refine ⟨?_, ?_, ?_⟩
  · rw [toggleDarkMode_darkModeClass, hg]; rfl
  · have := toggleDarkMode_labels s
    rwa [hg] at this
  · rw [toggleDarkMode_localStorage, setItem_of_unavailable _ _ h]

theorem iterate_toggleDarkMode_unavailable (n : Nat) (s : Page)
    (h : s.localStorage.available = false) :
    (toggleDarkMode^[n] s).localStorage.available = false := by
  induction n with
  | zero => exact h
  | succ n ih =>
    rw [Function.iterate_succ_apply', (toggleDarkMode_of_unavailable _ ih).2.2]
    exact ih

theorem init_of_degraded (s : Page) (h : s.localStorage.available = false)
    (hm : s.hasMatchMedia = false) :
    init s = if s.loading then
        { s with darkModeClass := false, domContentLoaded := s.domContentLoaded ++ [false] }
      else setupToggleButtons false { s with darkModeClass := false } := by
  have hd : detectSystemPreference s = (false, s) := by
    simp [detectSystemPreference, getDarkModePreference, getItem_of_unavailable _ h, hm]
  simp [init, hd, applyDarkMode_eq, setupSystemThemeListener, hm]

/-- C7, as stated, fails: in the degraded browser `init()` leaves the class
absent and the first toggle sets it, but the second toggle does not flip it
back: after two toggles the page is dark, with the labels of dark mode. -/
theorem degraded_second_toggle_example :
    (init degraded).darkModeClass = false ∧
    (toggleDarkMode (init degraded)).darkModeClass = true ∧
    (toggleDarkMode (toggleDarkMode (init degraded))).darkModeClass = true ∧
    LabelsShow (toggleDarkMode (toggleDarkMode (init degraded))) true ∧
    (toggleDarkMode (toggleDarkMode (init degraded))).toggleButtons ≠ [] := by
  decide

/-- C7, amended: with storage unavailable and no OS-signal support, `init()`
leaves the `dark-mode` class absent (and, when it binds at once, the labels of
light mode); every `toggleDarkMode()` call then reads an absent preference and
so sets the class and the labels of dark mode: after any positive number of
toggles the class is present and every button shows the dark-mode labels. -/
theorem degraded_toggle (s : Page) (h : s.localStorage.available = false)
    (hm : s.hasMatchMedia = false) :
    (init s).darkModeClass = false ∧
    (s.loading = false → LabelsShow (init s) false) ∧
    ∀ n : Nat, (toggleDarkMode^[n + 1] (init s)).darkModeClass = true ∧
      LabelsShow (toggleDarkMode^[n + 1] (init s)) true := by
  have hi := init_of_degraded s h hm
  have ha : (init s).localStorage.available = false := by
    rw [hi]; split <;> simpa [setupToggleButtons] using h
  refine ⟨?_, ?_, ?_⟩
  · rw [hi]; split <;> simp [setupToggleButtons]
  · intro hl b hb
    rw [hi] at hb
    simp only [hl, Bool.false_eq_true, if_false, setupToggleButtons, List.mem_map] at hb
    obtain ⟨a, _, rfl⟩ := hb
    exact ⟨rfl, rfl⟩
  · intro n
    rw [Function.iterate_succ_apply']
    have := toggleDarkMode_of_unavailable _ (iterate_toggleDarkMode_unavailable n (init s) ha)
    exact ⟨this.1, this.2.1⟩

/-- Witness of C7 amended: two toggles in the degraded browser. -/
theorem degraded_toggle_witness :
    degraded.localStorage.available = false ∧ degraded.hasMatchMedia = false ∧
    (init degraded).darkModeClass = false ∧
    (toggleDarkMode^[1 + 1] (init degraded)).darkModeClass = true ∧
    LabelsShow (toggleDarkMode^[1 + 1] (init degraded)) true :=
  ⟨rfl, rfl, (degraded_toggle degraded rfl rfl).1, (degraded_toggle degraded rfl rfl).2.2 1⟩

/-! ## Invariants of the event loop -/

theorem runListeners_preserves (P : Page → Prop) (handler : Page → Page × Bool)
    (hP : ∀ s, P s → P (handler s).1) :
    ∀ (n : Nat) (s : Page), P s → P (runListeners handler n s).1 := by
  intro n
  induction n with
  | zero => intro s hs; exact hs
  | succ n ih => intro s hs; exact ih _ (hP s hs)

theorem iterate_preserves (P : Page → Prop) (f : Page → Page) (hP : ∀ s, P s → P (f s)) :
    ∀ (n : Nat) (s : Page), P s → P (f^[n] s) := by
  intro n
  induction n with
  | zero => intro s hs; exact hs
  | succ n ih => intro s hs; rw [Function.iterate_succ_apply]; exact ih _ (hP s hs)

theorem foldl_setup_preserves (P : Page → Prop)
    (hP : ∀ m s, P s → P (setupToggleButtons m s)) :
    ∀ (l : List Bool) (s : Page), P s →
      P (l.foldl (fun acc isDarkMode => setupToggleButtons isDarkMode acc) s) := by
  intro l
  induction l with
  | nil => intro s hs; exact hs
  | cons m l ih => intro s hs; exact ih _ (hP m s hs)

theorem keydownHandler_preserves (P : Page → Prop) (hP : ∀ s, P s → P (toggleDarkMode s))
    (key : String) (s : Page) (hs : P s) : P (keydownHandler key s).1 := by
  unfold keydownHandler
  split
  · exact hP s hs
  · exact hs

/-- A property kept by `toggleDarkMode`, by an OS change event and by the
`DOMContentLoaded` event is kept by every event. -/
theorem step_preserves (P : Page → Prop) (ht : ∀ s, P s → P (toggleDarkMode s))
    (hc : ∀ m s, P s → P (systemThemeChange m s))
    (hr : ∀ s, P s → P (fireDOMContentLoaded s)) (s : Page) (e : Event) (hs : P s) :
    P (step s e) := by
  cases e with
  | toggle => exact ht s hs
  | systemTheme m => exact hc m s hs
  | domReady => exact hr s hs
  | click i =>
    show P (click i s).1
    unfold click
    split
    · exact runListeners_preserves P clickHandler ht _ s hs
    · exact hs
  | keydown i key =>
    show P (keydown i key s).1
    unfold keydown
    split
    · exact runListeners_preserves P _ (keydownHandler_preserves P ht key) _ s hs
    · exact hs

theorem foldl_step_preserves (P : Page → Prop) (hP : ∀ s e, P s → P (step s e)) :
    ∀ (events : List Event) (s : Page), P s → P (events.foldl step s) := by
  intro events
  induction events with
  | nil => intro s hs; exact hs
  | cons e events ih => intro s hs; exact ih _ (hP s e hs)

theorem visualInv_setupToggleButtons (m : Bool) (s : Page) (h : VisualInv s) :
    VisualInv (setupToggleButtons m s) := h

theorem effectivePreference_of_some (s : Page) (v : String)
    (h : s.localStorage.getItem = some v) : effectivePreference s = decide (v = "true") := by
  simp only [effectivePreference, h]

theorem effectivePreference_of_none (s : Page) (h : s.localStorage.getItem = none) :
    effectivePreference s = (s.hasMatchMedia && s.prefersDark) := by
  simp only [effectivePreference, h]

theorem decide_boolToString (b : Bool) : decide (boolToString b = "true") = b := by
  cases b <;> decide

theorem visualInv_toggleDarkMode (s : Page) (h : VisualInv s) : VisualInv (toggleDarkMode s) := by
  obtain ⟨ha, hl, _⟩ := h
  obtain ⟨e1, e2, e3, _, _⟩ := toggleDarkMode_env s
  have hst : (toggleDarkMode s).localStorage.getItem
      = some (boolToString (!getDarkModePreference s)) := by
    rw [toggleDarkMode_localStorage]
    exact getItem_setItem _ _ ha
  refine ⟨?_, ?_, ?_⟩
  · rw [toggleDarkMode_localStorage, available_setItem]; exact ha
  · rw [e1, e3]; exact hl
  · rw [toggleDarkMode_darkModeClass, effectivePreference_of_some _ _ hst, decide_boolToString]

/-- One run of the change listener on an absent key establishes the invariant. -/
theorem visualInv_systemThemeChangeHandler (m : Bool) (s : Page)
    (ha : s.localStorage.available = true) (hn : s.localStorage.getItem = none)
    (hl : s.hasMatchMedia = true → 0 < s.changeListeners) :
    VisualInv (systemThemeChangeHandler m s) := by
  obtain ⟨e1, _, e3, _, _⟩ := systemThemeChangeHandler_env m s
  have hst : (systemThemeChangeHandler m s).localStorage.getItem = some (boolToString m) := by
    rw [systemThemeChangeHandler_localStorage m s hn]
    exact getItem_setItem _ _ ha
  refine ⟨?_, ?_, ?_⟩
  · rw [systemThemeChangeHandler_localStorage m s hn, available_setItem]; exact ha
  · rw [e1, e3]; exact hl
  · rw [systemThemeChangeHandler_darkModeClass m s hn, effectivePreference_of_some _ _ hst,
      decide_boolToString]

theorem visualInv_systemThemeChange (m : Bool) (s : Page) (h : VisualInv s) :
    VisualInv (systemThemeChange m s) := by
  obtain ⟨ha, hl, hv⟩ := h
  cases hg : s.localStorage.getItem with
  | some v =>
    have e : systemThemeChange m s = { s with prefersDark := m } :=
      iterate_handler_of_present m _ _ (by simp [hg])
    rw [e]
    refine ⟨ha, hl, ?_⟩
    rw [effectivePreference_of_some _ v hg] at hv
    exact hv.trans (effectivePreference_of_some { s with prefersDark := m } v hg).symm
  | none =>
    rcases Nat.eq_zero_or_pos s.changeListeners with h0 | hpos
    · have hm : s.hasMatchMedia = false := by
        cases hmm : s.hasMatchMedia with
        | false => rfl
        | true => have := hl hmm; omega
      have e : systemThemeChange m s = { s with prefersDark := m } := by
        unfold systemThemeChange; rw [h0]; rfl
      rw [e]
      refine ⟨ha, hl, ?_⟩
      rw [effectivePreference_of_none _ hg, hm] at hv
      refine hv.trans ((effectivePreference_of_none { s with prefersDark := m } hg).trans ?_).symm
      simp [hm]
    · rw [systemThemeChange_of_absent m s ha hg hpos]
      exact visualInv_systemThemeChangeHandler m { s with prefersDark := m } ha hg hl

theorem visualInv_fireDOMContentLoaded (s : Page) (h : VisualInv s) :
    VisualInv (fireDOMContentLoaded s) := by
  unfold fireDOMContentLoaded
  split
  · exact foldl_setup_preserves VisualInv visualInv_setupToggleButtons _ _ h
  · exact h

theorem visualInv_init (s : Page) (ha : s.localStorage.available = true) : VisualInv (init s) := by
  have core : VisualInv (setupSystemThemeListener
      (applyDarkMode (detectSystemPreference s).1 (detectSystemPreference s).2)) := by
    cases hg : s.localStorage.getItem with
    | some v =>
      rw [detectSystemPreference_of_present s v hg]
      refine ⟨?_, ?_, ?_⟩
      · unfold setupSystemThemeListener; split <;> simpa [applyDarkMode_eq] using ha
      · unfold setupSystemThemeListener; split <;> simp_all [applyDarkMode_eq]
      · unfold setupSystemThemeListener
        split <;> simp [applyDarkMode_eq, effectivePreference, hg]
    | none =>
      cases hm : s.hasMatchMedia with
      | false =>
        rw [detectSystemPreference_of_light s hg (Or.inl hm)]
        refine ⟨?_, ?_, ?_⟩
        · simpa [setupSystemThemeListener, hm, applyDarkMode_eq] using ha
        · simp [setupSystemThemeListener, hm, applyDarkMode_eq]
        · simp [setupSystemThemeListener, hm, applyDarkMode_eq, effectivePreference, hg]
      | true =>
        cases hd : s.prefersDark with
        | false =>
          rw [detectSystemPreference_of_light s hg (Or.inr hd)]
          refine ⟨?_, ?_, ?_⟩
          · simpa [setupSystemThemeListener, hm, applyDarkMode_eq] using ha
          · simp [setupSystemThemeListener, hm, applyDarkMode_eq]
          · simp [setupSystemThemeListener, hm, applyDarkMode_eq, effectivePreference, hg, hd]
        | true =>
          rw [detectSystemPreference_of_dark s hg hm hd, saveDarkModePreference_true_eq s ha]
          refine ⟨?_, ?_, ?_⟩
          · simp [setupSystemThemeListener, hm, applyDarkMode_eq]
          · simp [setupSystemThemeListener, hm, applyDarkMode_eq]
          · simp [setupSystemThemeListener, hm, applyDarkMode_eq, effectivePreference,
              LocalStorage.getItem]
  unfold init
  simp only
  split
  · exact core
  · exact visualInv_setupToggleButtons _ _ core

/-- C2: on a working storage, in every state reached from `init()` by any finite
sequence of events (calls of `toggleDarkMode`, OS preference-change events, and
also the `DOMContentLoaded` event, clicks and keydowns on the controls), the
`dark-mode` class is present exactly when the effective preference is `true`:
the stored string compared with `"true"` when the key is present, else the OS
flag when the OS signal is available, else `false`. -/
theorem visual_state_invariant (s : Page) (events : List Event)
    (h : s.localStorage.available = true) :
    (run s events).darkModeClass = effectivePreference (run s events) ∧
    ((run s events).darkModeClass = true ↔
      (match (run s events).localStorage.getItem with
       | some v => v = "true"
       | none => (run s events).hasMatchMedia = true ∧ (run s events).prefersDark = true)) := by
  have hinv : VisualInv (run s events) :=
    foldl_step_preserves VisualInv
      (step_preserves VisualInv visualInv_toggleDarkMode visualInv_systemThemeChange
        visualInv_fireDOMContentLoaded)
      events (init s) (visualInv_init s h)
  refine ⟨hinv.2.2, ?_⟩
  rw [hinv.2.2]
  unfold effectivePreference
  cases (run s events).localStorage.getItem <;> simp

/-- Witness of C2: a first visit, then a toggle, the OS turning dark, and a click
on the second button. -/
theorem visual_state_invariant_witness :
    firstVisit.localStorage.available = true ∧
    (run firstVisit [.toggle, .systemTheme true, .click 1]).darkModeClass
      = effectivePreference (run firstVisit [.toggle, .systemTheme true, .click 1]) :=
  ⟨rfl, (visual_state_invariant firstVisit [.toggle, .systemTheme true, .click 1] rfl).1⟩

/-! ## Labels against the visual state -/

theorem labelsInv_toggleDarkMode (s : Page) (h : LabelsInv s) : LabelsInv (toggleDarkMode s) := by
  refine ⟨(toggleDarkMode_env s).2.2.2.1.trans h.1, ?_⟩
  rw [toggleDarkMode_darkModeClass]
  exact toggleDarkMode_labels s

theorem labelsInv_systemThemeChangeHandler (m : Bool) (s : Page) (h : LabelsInv s) :
    LabelsInv (systemThemeChangeHandler m s) := by
  cases hg : s.localStorage.getItem with
  | some v => rw [systemThemeChangeHandler_of_present m s (by simp [hg])]; exact h
  | none =>
    refine ⟨(systemThemeChangeHandler_env m s).2.2.2.1.trans h.1, ?_⟩
    rw [systemThemeChangeHandler_darkModeClass m s hg, systemThemeChangeHandler_of_absent m s hg]
    exact labelsShow_updateAll _ _

theorem labelsInv_systemThemeChange (m : Bool) (s : Page) (h : LabelsInv s) :
    LabelsInv (systemThemeChange m s) :=
  iterate_preserves LabelsInv _ (labelsInv_systemThemeChangeHandler m) _
    { s with prefersDark := m } h

theorem labelsInv_fireDOMContentLoaded (s : Page) (h : LabelsInv s) :
    LabelsInv (fireDOMContentLoaded s) := by
  simp only [fireDOMContentLoaded, h.1, Bool.false_eq_true, if_false]
  exact h

theorem labelsShow_setupToggleButtons (m : Bool) (s : Page) :
    LabelsShow (setupToggleButtons m s) m := by
  intro b hb
  simp only [setupToggleButtons, List.mem_map] at hb
  obtain ⟨a, _, rfl⟩ := hb
  exact ⟨rfl, rfl⟩

theorem init_darkModeClass (s : Page) :
    (init s).darkModeClass = (detectSystemPreference s).1 := by
  simp only [init, setupSystemThemeListener, applyDarkMode_eq, setupToggleButtons]
  split <;> split <;> rfl

/-- When the document is already parsed, `init()` binds the controls at once and
the labels agree with the class. -/
theorem labelsInv_init (s : Page) (h : s.loading = false) : LabelsInv (init s) := by
  have hl : (detectSystemPreference s).2.loading = false := by
    unfold detectSystemPreference
    split
    · split <;> exact h
    · exact h
  have e : init s = setupToggleButtons (detectSystemPreference s).1
      (setupSystemThemeListener
        (applyDarkMode (detectSystemPreference s).1 (detectSystemPreference s).2)) := by
    have hl2 : (setupSystemThemeListener
        (applyDarkMode (detectSystemPreference s).1 (detectSystemPreference s).2)).loading
          = false := by
      unfold setupSystemThemeListener
      split <;> simpa [applyDarkMode_eq] using hl
    simp only [init, hl2, Bool.false_eq_true, if_false]
  refine ⟨?_, ?_⟩
  · rw [e]
    unfold setupSystemThemeListener
    split <;> simpa [setupToggleButtons, applyDarkMode_eq] using hl
  · rw [init_darkModeClass, e]
    exact labelsShow_setupToggleButtons _ _

/-- The scope of the stale labels of C3: when `init()` runs on a parsed document,
so that the controls are bound at once, every toggle button shows the labels of
the displayed mode in every state reached by any sequence of events. -/
theorem labels_consistent_of_parsed (s : Page) (events : List Event) (h : s.loading = false) :
    LabelsShow (run s events) (run s events).darkModeClass :=
  (foldl_step_preserves LabelsInv
    (step_preserves LabelsInv labelsInv_toggleDarkMode labelsInv_systemThemeChange
      labelsInv_fireDOMContentLoaded)
    events (init s) (labelsInv_init s h)).2

/-- C3 fails on the code: `init()` runs while the document is loading on a first
visit (nothing stored, light OS) and defers the binding with `isDarkMode = false`
captured.  A call of the exported `toggleDarkMode`, or the OS turning dark,
before `DOMContentLoaded` sets the `dark-mode` class; the deferred
`setupToggleButtons(false)` then binds every control (one listener pair each) and
labels it `Dark Mode` / `Switch to dark mode` although the class is present. -/
theorem deferred_binding_stale_labels :
    firstVisitLoading.loading = true ∧
    (run firstVisitLoading [.toggle, .domReady]).darkModeClass = true ∧
    LabelsShow (run firstVisitLoading [.toggle, .domReady]) false ∧
    ¬ LabelsShow (run firstVisitLoading [.toggle, .domReady]) true ∧
    (∀ b ∈ (run firstVisitLoading [.toggle, .domReady]).toggleButtons, b.listeners = 1) ∧
    (run firstVisitLoading [.systemTheme true, .domReady]).darkModeClass = true ∧
    LabelsShow (run firstVisitLoading [.systemTheme true, .domReady]) false ∧
    ¬ LabelsShow (run firstVisitLoading [.systemTheme true, .domReady]) true := by
  decide

end DarkMode
